import Mathlib

/-!
Shallow embedding of the monitoring-cycle engine of `step4_monitoring`
(`src/monitor.py`, class `ServiceMonitor`).

Modelling conventions:
- Python floats are modelled as `ℚ` (latencies, thresholds, error rates).
  `statistics.mean` computes an exact rational mean internally, and
  `int(0.95 * n)` agrees with `⌊19 * n / 20⌋` for every list length that can
  occur (the rounding error of the double `0.95` is far below the distance to
  the nearest integer boundary), so rational arithmetic is faithful here.
- Timestamps are seconds as `ℤ`; `timedelta(hours=1)` is `3600`,
  `timedelta(minutes=m)` is `m * 60`.
- The network transport outcome of one HTTP request is an explicit
  `Transport` value: either a response with a status code, or a raised
  exception; both carry the measured elapsed milliseconds.
- Alert dictionaries become the `Alert` structure; the human-readable
  `message` field (a formatted string) is presentation-only and omitted.
- The mutable fields of `ServiceMonitor` are threaded explicitly:
  `calculate_metrics` takes and returns `consecutive_failures`,
  `should_alert` takes and returns the `last_alert_time` map, and
  `monitoring_cycle` transforms a `MonitorState`.
-/

namespace Monitor

/-- Mirrors the `RequestMetrics` dataclass of `monitor.py`. -/
structure RequestMetrics where
  endpoint : String
  response_time : ℚ
  status_code : ℕ
  success : Bool
  timestamp : ℤ
deriving DecidableEq, Repr

/-- Mirrors the `ServiceMetrics` dataclass of `monitor.py`. -/
structure ServiceMetrics where
  timestamp : ℤ
  response_time_avg : ℚ
  response_time_p95 : ℚ
  error_rate : ℚ
  total_requests : ℕ
  successful_requests : ℕ
  failed_requests : ℕ
  consecutive_failures : ℕ
  health_status : Bool
deriving DecidableEq, Repr

/-- Outcome of the single outbound HTTP request wrapped by
`ServiceMonitor.perform_request`: either a response arrived with a status
code, or the request raised; both carry the elapsed time in ms. -/
inductive Transport where
  | ok (status : ℕ) (elapsed : ℚ)
  | exn (elapsed : ℚ)
deriving DecidableEq, Repr

/-- Models Python's `str.upper()` (ASCII case mapping, character by
character), used by `perform_request` on the method string. -/
def py_upper (s : String) : String := ⟨s.data.map Char.toUpper⟩

/-- Embeds `ServiceMonitor.perform_request` (monitor.py lines 161-209).
The Python body dispatches on the method string: a GET branch, a
`POST and data` branch (note: `data` is tested for truthiness), and no
other branch — for any other method the function falls off the end of the
`try` block and implicitly returns `None`, which we model as `none`.
Inside a taken branch, a raised exception is caught and converted to a
failed record with `status_code = 0`; a response yields
`success = status < 400`. -/
def perform_request (endpoint method : String) (data_truthy : Bool)
    (t : Transport) (now : ℤ) : Option RequestMetrics :=
  if py_upper method = ("GET") ∨ (py_upper method = ("POST") ∧ data_truthy) then
    some (match t with
      | .ok status elapsed =>
          { endpoint := endpoint
            response_time := elapsed
            status_code := status
            success := decide (status < 400)
            timestamp := now }
      | .exn elapsed =>
          { endpoint := endpoint
            response_time := elapsed
            status_code := 0
            success := false
            timestamp := now })
  else
    none

/-- Count of failed requests in a batch (`len(failed_requests)`). -/
def failed_count (requests : List RequestMetrics) : ℕ :=
  (requests.filter (fun r => !r.success)).length

/-- Latencies of the successful requests, in batch order
(`[r.response_time for r in requests if r.success]`). -/
def successful_latencies (requests : List RequestMetrics) : List ℚ :=
  (requests.filter (fun r => r.success)).map (fun r => r.response_time)

/-- Embeds `ServiceMonitor.calculate_metrics` (monitor.py lines 211-264).
Takes the prior `self.consecutive_failures` and `self.health_status`;
returns the snapshot together with the updated counter (the Python method
mutates `self.consecutive_failures` in place). The empty-batch early
return at lines 213-224 carries the prior counter through unchanged. -/
def calculate_metrics (cf : ℕ) (hs : Bool) (now : ℤ)
    (requests : List RequestMetrics) : ServiceMetrics × ℕ :=
  if requests = [] then
    ({ timestamp := now
       response_time_avg := 0
       response_time_p95 := 0
       error_rate := 100
       total_requests := 0
       successful_requests := 0
       failed_requests := 0
       consecutive_failures := cf
       health_status := hs }, cf)
  else
    let response_times := successful_latencies requests
    let successful_cnt := (requests.filter (fun r => r.success)).length
    let failed_cnt := failed_count requests
    let total := requests.length
    let avg : ℚ := if response_times = [] then 0
      else response_times.sum / (response_times.length : ℚ)
    let p95 : ℚ :=
      if response_times = [] then 0
      else
        let sorted_times := response_times.mergeSort (fun a b => decide (a ≤ b))
        sorted_times.getD (19 * sorted_times.length / 20) 0
    let er : ℚ := if 0 < total then (failed_cnt : ℚ) / (total : ℚ) * 100 else 100
    let newCf : ℕ := if 0 < failed_cnt then cf + failed_cnt else 0
    ({ timestamp := now
       response_time_avg := avg
       response_time_p95 := p95
       error_rate := er
       total_requests := total
       successful_requests := successful_cnt
       failed_requests := failed_cnt
       consecutive_failures := newCf
       health_status := hs }, newCf)

/-- Warning/critical pair for a continuous dimension (config values). -/
structure ThresholdPair where
  warning : ℚ
  critical : ℚ
deriving DecidableEq, Repr

/-- Warning/critical pair for the integer consecutive-failures dimension. -/
structure NatThresholdPair where
  warning : ℕ
  critical : ℕ
deriving DecidableEq, Repr

/-- Mirrors `ThresholdsConfig` from `config.py`. -/
structure Thresholds where
  response_time_ms : ThresholdPair
  p95_latency_ms : ThresholdPair
  error_rate_percent : ThresholdPair
  consecutive_failures : NatThresholdPair
deriving DecidableEq, Repr

/-- Severity level of a candidate alert. -/
inductive AlertLevel where
  | warning
  | critical
deriving DecidableEq, Repr

/-- Dimension (`'type'` key) of a candidate alert. -/
inductive AlertType where
  | response_time
  | p95_latency
  | error_rate
  | consecutive_failures
  | health_status
deriving DecidableEq, Repr

/-- Mirrors the alert dictionaries built by `check_thresholds`; the
formatted `message` string is omitted as presentation-only. -/
structure Alert where
  atype : AlertType
  level : AlertLevel
  value : ℚ
  threshold : ℚ
deriving DecidableEq, Repr

/-- Embeds `ServiceMonitor.check_thresholds` (monitor.py lines 266-352):
an if/elif pair per numeric dimension (strict `>` for the continuous ones,
`>=` for consecutive failures), then an unconditional critical alert with
value 0 / threshold 1 whenever `health_status` is false. -/
def check_thresholds (th : Thresholds) (m : ServiceMetrics) : List Alert :=
  (if m.response_time_avg > th.response_time_ms.critical then
    [⟨.response_time, .critical, m.response_time_avg, th.response_time_ms.critical⟩]
  else if m.response_time_avg > th.response_time_ms.warning then
    [⟨.response_time, .warning, m.response_time_avg, th.response_time_ms.warning⟩]
  else []) ++
  (if m.response_time_p95 > th.p95_latency_ms.critical then
    [⟨.p95_latency, .critical, m.response_time_p95, th.p95_latency_ms.critical⟩]
  else if m.response_time_p95 > th.p95_latency_ms.warning then
    [⟨.p95_latency, .warning, m.response_time_p95, th.p95_latency_ms.warning⟩]
  else []) ++
  (if m.error_rate > th.error_rate_percent.critical then
    [⟨.error_rate, .critical, m.error_rate, th.error_rate_percent.critical⟩]
  else if m.error_rate > th.error_rate_percent.warning then
    [⟨.error_rate, .warning, m.error_rate, th.error_rate_percent.warning⟩]
  else []) ++
  (if m.consecutive_failures ≥ th.consecutive_failures.critical then
    [⟨.consecutive_failures, .critical, (m.consecutive_failures : ℚ),
      (th.consecutive_failures.critical : ℚ)⟩]
  else if m.consecutive_failures ≥ th.consecutive_failures.warning then
    [⟨.consecutive_failures, .warning, (m.consecutive_failures : ℚ),
      (th.consecutive_failures.warning : ℚ)⟩]
  else []) ++
  (if m.health_status then [] else [⟨.health_status, .critical, 0, 1⟩])

/-- Key of the cooldown map: the Python code uses the string
`f"{alert_type}_{level}"`, which is injective on the finitely many
dimension/severity pairs actually produced, so we key by the pair. -/
abbrev AlertKey := AlertType × AlertLevel

/-- Embeds `ServiceMonitor.should_alert` (monitor.py lines 354-370).
Returns the fire/suppress decision together with the updated
`last_alert_time` map (the Python method mutates it in place). -/
def should_alert (enabled : Bool) (cooldown_minutes : ℤ)
    (last : AlertKey → Option ℤ) (k : AlertKey) (now : ℤ) :
    Bool × (AlertKey → Option ℤ) :=
  if !enabled then
    (false, last)
  else
    match last k with
    | some t =>
        if now - t < cooldown_minutes * 60 then
          (false, last)
        else
          (true, Function.update last k (some now))
    | none => (true, Function.update last k (some now))

/-- Status tag attached to an emitted metric record. -/
inductive Status where
  | normal
  | warning
  | critical
deriving DecidableEq, Repr

/-- Name of an emitted metric record. -/
inductive MetricName where
  | response_time_avg
  | response_time_p95
  | error_rate
  | consecutive_failures
  | health_status
deriving DecidableEq, Repr

/-- One `logger.log_metric(name, value, status)` call. -/
structure MetricRecord where
  name : MetricName
  value : ℚ
  status : Status
deriving DecidableEq, Repr

/-- Embeds the overall-status if/elif chain at the top of
`ServiceMonitor.log_metrics` (monitor.py lines 374-386). -/
def overall_status (th : Thresholds) (m : ServiceMetrics) : Status :=
  if m.error_rate > th.error_rate_percent.critical then .critical
  else if m.response_time_avg > th.response_time_ms.critical ∨
      m.consecutive_failures ≥ th.consecutive_failures.critical then .critical
  else if m.error_rate > th.error_rate_percent.warning then .warning
  else if m.response_time_avg > th.response_time_ms.warning ∨
      m.consecutive_failures ≥ th.consecutive_failures.warning then .warning
  else .normal

/-- Embeds `ServiceMonitor.log_metrics` (monitor.py lines 372-434) as the
sequence of `log_metric` records it emits: the four aggregate metrics
tagged with the overall status, then the health flag as 1.0/0.0 tagged
normal/critical. The final `logger.info` console line is
presentation-only. -/
def log_metrics (th : Thresholds) (m : ServiceMetrics) : List MetricRecord :=
  [⟨.response_time_avg, m.response_time_avg, overall_status th m⟩,
   ⟨.response_time_p95, m.response_time_p95, overall_status th m⟩,
   ⟨.error_rate, m.error_rate, overall_status th m⟩,
   ⟨.consecutive_failures, (m.consecutive_failures : ℚ), overall_status th m⟩,
   ⟨.health_status, if m.health_status then 1 else 0,
     if m.health_status then .normal else .critical⟩]

/-- Embeds `ServiceMonitor._cleanup_old_data` (monitor.py lines 509-521):
keep only entries whose timestamp is strictly newer than one hour before
`now`, in both history lists. -/
def cleanup_old_data (now : ℤ) (request_history : List RequestMetrics)
    (metrics_history : List ServiceMetrics) :
    List RequestMetrics × List ServiceMetrics :=
  let cutoff := now - 3600
  (request_history.filter (fun r => decide (r.timestamp > cutoff)),
   metrics_history.filter (fun m => decide (m.timestamp > cutoff)))

/-- Mutable state of a `ServiceMonitor` instance (monitor.py lines 47-54). -/
structure MonitorState where
  request_history : List RequestMetrics
  metrics_history : List ServiceMetrics
  consecutive_failures : ℕ
  last_alert_time : AlertKey → Option ℤ
  health_status : Bool

/-- State of `ServiceMonitor` right after `__init__`: empty histories,
zero counter, empty cooldown map, health flag false. -/
def initial_state : MonitorState :=
  { request_history := []
    metrics_history := []
    consecutive_failures := 0
    last_alert_time := fun _ => none
    health_status := false }

/-- Folds the alert-gating loop of `monitoring_cycle` (lines 472-480):
each candidate alert consults `should_alert`, threading the cooldown map;
returns the updated map and the alerts that actually fired. -/
def process_alerts (enabled : Bool) (cooldown_minutes : ℤ) (now : ℤ)
    (last : AlertKey → Option ℤ) (alerts : List Alert) :
    (AlertKey → Option ℤ) × List Alert :=
  alerts.foldl
    (fun acc a =>
      let r := should_alert enabled cooldown_minutes acc.1 (a.atype, a.level) now
      (r.2, if r.1 then acc.2 ++ [a] else acc.2))
    (last, [])

/-- Externally supplied outcomes of one monitoring cycle: the health-probe
result, the extra samples returned by the `perform_request` loop, and the
wall-clock time of the cycle. -/
structure CycleInput where
  healthOk : Bool
  healthLatency : ℚ
  extra : List RequestMetrics
  now : ℤ

/-- Embeds `ServiceMonitor.monitoring_cycle` (monitor.py lines 436-507) as
a state transformer. The health probe sets `health_status` and contributes
the first sample (status 200/500); the remaining samples are the results
of the `perform_request` loop; the batch is aggregated, the snapshot
appended to `metrics_history`, candidate alerts are gated, and both
history lists are pruned. The inference test (lines 485-504) only emits
log records and touches none of this state, so it is not modelled here. -/
def monitoring_cycle (th : Thresholds) (enabled : Bool)
    (cooldown_minutes : ℤ) (healthEndpoint : String) (st : MonitorState)
    (i : CycleInput) : MonitorState :=
  let healthSample : RequestMetrics :=
    { endpoint := healthEndpoint
      response_time := i.healthLatency
      status_code := if i.healthOk then 200 else 500
      success := i.healthOk
      timestamp := i.now }
  let requests := healthSample :: i.extra
  let r := calculate_metrics st.consecutive_failures i.healthOk i.now requests
  let mh := st.metrics_history ++ [r.1]
  let alerts := check_thresholds th r.1
  let p := process_alerts enabled cooldown_minutes i.now st.last_alert_time alerts
  let cleaned := cleanup_old_data i.now st.request_history mh
  { request_history := cleaned.1
    metrics_history := cleaned.2
    consecutive_failures := r.2
    last_alert_time := p.1
    health_status := i.healthOk }

/-- Runs `monitoring_cycle` over a sequence of cycle inputs starting from
the freshly initialised monitor, as `start_monitoring`'s loop does. -/
def run_monitor (th : Thresholds) (enabled : Bool) (cooldown_minutes : ℤ)
    (healthEndpoint : String) (inputs : List CycleInput) : MonitorState :=
  inputs.foldl (monitoring_cycle th enabled cooldown_minutes healthEndpoint)
    initial_state

end Monitor

namespace Monitor

/-! ## Claim C1: consecutive-failure accounting -/

/-- Claim C1 counterexample: on an empty batch the claim demands
`newConsecutiveFailures = 0`, but `calculate_metrics` early-returns at
lines 213-224 carrying the prior counter (here 5) into the snapshot
unchanged, so the snapshot's `consecutive_failures` is not 0. -/
theorem C1_empty_batch_cex :
    ¬ ((calculate_metrics 5 true 0 []).1.consecutive_failures = 0) := by
  decide

/-- Claim C1 (amended): for a non-empty batch the new counter (and the
snapshot's `consecutive_failures` field, which always equals it) is
`prior + failure_count` when `failure_count > 0` and `0` otherwise; for an
empty batch the counter keeps the prior value instead of resetting. -/
theorem C1_consecutive_failures (cf : ℕ) (hs : Bool) (now : ℤ)
    (requests : List RequestMetrics) :
    (calculate_metrics cf hs now requests).1.consecutive_failures =
      (calculate_metrics cf hs now requests).2 ∧
    (calculate_metrics cf hs now requests).2 =
      (if requests = [] then cf
       else if 0 < failed_count requests then cf + failed_count requests
       else 0) := by
  by_cases h : requests = [] <;> simp [calculate_metrics, h]

/-! ## Claim C4: error-rate definition -/

/-- Claim C4: `error_rate` is 100 for an empty batch and exactly
`failure_count / total * 100` otherwise. -/
theorem C4_error_rate (cf : ℕ) (hs : Bool) (now : ℤ)
    (requests : List RequestMetrics) :
    (calculate_metrics cf hs now requests).1.error_rate =
      (if requests.length = 0 then 100
       else (failed_count requests : ℚ) / (requests.length : ℚ) * 100) := by
  by_cases h : requests = []
  · simp [calculate_metrics, h]
  · simp [calculate_metrics, h, List.length_eq_zero, List.length_pos.mpr h]

/-! ## Claim C6: health-status alert -/

/-- Claim C6: for every threshold configuration and snapshot,
`check_thresholds` emits exactly one critical `health_status` alert with
value 0 and threshold 1 when `health_status` is false, and none when it
is true. -/
theorem C6_health_alert (th : Thresholds) (m : ServiceMetrics) :
    (check_thresholds th m).filter
        (fun a => decide (a.atype = AlertType.health_status)) =
      (if m.health_status then []
       else [⟨.health_status, .critical, 0, 1⟩]) := by
  unfold check_thresholds
  split_ifs <;> rfl

/-! ## Claim C9: one-hour retention on prune -/

/-- Claim C9: after a prune at time `now`, every retained sample and
snapshot is strictly newer than `now - 3600`, and an entry exactly one
hour old is removed. -/
theorem C9_retention (now : ℤ) (reqs : List RequestMetrics)
    (snaps : List ServiceMetrics) :
    (∀ r ∈ (cleanup_old_data now reqs snaps).1, now - 3600 < r.timestamp) ∧
    (∀ m ∈ (cleanup_old_data now reqs snaps).2, now - 3600 < m.timestamp) ∧
    (∀ r : RequestMetrics, r.timestamp = now - 3600 →
      r ∉ (cleanup_old_data now reqs snaps).1) ∧
    (∀ m : ServiceMetrics, m.timestamp = now - 3600 →
      m ∉ (cleanup_old_data now reqs snaps).2) := by
  refine ⟨?_, ?_, ?_, ?_⟩
  · intro r hr
    simp [cleanup_old_data, List.mem_filter] at hr
    omega
  · intro m hm
    simp [cleanup_old_data, List.mem_filter] at hm
    omega
  · intro r heq hmem
    simp [cleanup_old_data, List.mem_filter] at hmem
    omega
  · intro m heq hmem
    simp [cleanup_old_data, List.mem_filter] at hmem
    omega

/-- Concrete retained sample for the C9 witness (1 second after cutoff). -/
def sampleKept : RequestMetrics :=
  { endpoint := "/health", response_time := 1, status_code := 200,
    success := true, timestamp := 1 }

/-- Concrete boundary sample for the C9 witness (exactly one hour old). -/
def sampleBoundary : RequestMetrics :=
  { endpoint := "/health", response_time := 1, status_code := 200,
    success := true, timestamp := 0 }

/-- Claim C9 witness: at `now = 3600`, the sample with timestamp 1 is
retained and satisfies the strict bound, and the sample with timestamp 0
(exactly one hour old) is pruned. -/
theorem C9_retention_witness :
    (3600 - 3600 < sampleKept.timestamp) ∧
    sampleBoundary ∉ (cleanup_old_data 3600 [sampleKept, sampleBoundary] []).1 :=
  ⟨(C9_retention 3600 [sampleKept, sampleBoundary] []).1 sampleKept (by decide),
   (C9_retention 3600 [sampleKept, sampleBoundary] []).2.2.1 sampleBoundary
     (by decide)⟩

/-! ## Claim C10: the raw-sample history is never populated -/

/-- Claim C10: `monitoring_cycle` only ever prunes `request_history`
(never appends to it), so starting from the freshly initialised monitor it
stays empty across any sequence of cycles and its pruning is vacuous. -/
theorem C10_request_history (th : Thresholds) (enabled : Bool) (cm : ℤ)
    (ep : String) :
    (∀ st i, (monitoring_cycle th enabled cm ep st i).request_history =
      st.request_history.filter
        (fun r => decide (r.timestamp > i.now - 3600))) ∧
    (∀ inputs, (run_monitor th enabled cm ep inputs).request_history = []) := by
  constructor
  · intro st i
    rfl
  · intro inputs
    have key : ∀ (l : List CycleInput) (st : MonitorState),
        st.request_history = [] →
        (l.foldl (monitoring_cycle th enabled cm ep) st).request_history = [] := by
      intro l
      induction l with
      | nil => intro st h; exact h
      | cons a t ih =>
          intro st h
          refine ih _ ?_
          have hstep : (monitoring_cycle th enabled cm ep st a).request_history =
              st.request_history.filter
                (fun r => decide (r.timestamp > a.now - 3600)) := rfl
          rw [hstep, h]
          rfl
    exact key inputs initial_state rfl

end Monitor

namespace Monitor

/-! ## Claim C2: per-dimension threshold precedence -/

/-- Filtering an if/elif dimension chunk whose two candidate alerts both
fail the filter yields nothing. -/
theorem filter_pair_none {q : Alert → Bool} {c1 c2 : Prop} [Decidable c1]
    [Decidable c2] {a1 a2 : Alert} (h1 : q a1 = false) (h2 : q a2 = false) :
    List.filter q (if c1 then [a1] else if c2 then [a2] else []) = [] := by
  split_ifs <;> simp [h1, h2]

/-- Filtering an if/elif dimension chunk whose two candidate alerts both
pass the filter leaves the chunk unchanged. -/
theorem filter_pair_all {q : Alert → Bool} {c1 c2 : Prop} [Decidable c1]
    [Decidable c2] {a1 a2 : Alert} (h1 : q a1 = true) (h2 : q a2 = true) :
    List.filter q (if c1 then [a1] else if c2 then [a2] else []) =
      (if c1 then [a1] else if c2 then [a2] else []) := by
  split_ifs <;> simp [h1, h2]

/-- Filtering the health-status chunk yields nothing when its alert fails
the filter. -/
theorem filter_health_none {q : Alert → Bool} {c : Prop} [Decidable c]
    {a : Alert} (h : q a = false) :
    List.filter q (if c then [] else [a]) = [] := by
  split_ifs <;> simp [h]

/-- Claim C2: per numeric dimension, `check_thresholds` emits exactly one
critical alert when the value crosses the critical threshold (never also
the warning), else exactly one warning alert when it crosses the warning
threshold, else nothing; the three continuous dimensions compare strictly
with `>` while consecutive failures compares inclusively with `≥`. -/
theorem C2_threshold_precedence (th : Thresholds) (m : ServiceMetrics) :
    ((check_thresholds th m).filter
        (fun a => decide (a.atype = AlertType.response_time)) =
      (if m.response_time_avg > th.response_time_ms.critical then
        [⟨.response_time, .critical, m.response_time_avg,
          th.response_time_ms.critical⟩]
      else if m.response_time_avg > th.response_time_ms.warning then
        [⟨.response_time, .warning, m.response_time_avg,
          th.response_time_ms.warning⟩]
      else [])) ∧
    ((check_thresholds th m).filter
        (fun a => decide (a.atype = AlertType.p95_latency)) =
      (if m.response_time_p95 > th.p95_latency_ms.critical then
        [⟨.p95_latency, .critical, m.response_time_p95,
          th.p95_latency_ms.critical⟩]
      else if m.response_time_p95 > th.p95_latency_ms.warning then
        [⟨.p95_latency, .warning, m.response_time_p95,
          th.p95_latency_ms.warning⟩]
      else [])) ∧
    ((check_thresholds th m).filter
        (fun a => decide (a.atype = AlertType.error_rate)) =
      (if m.error_rate > th.error_rate_percent.critical then
        [⟨.error_rate, .critical, m.error_rate,
          th.error_rate_percent.critical⟩]
      else if m.error_rate > th.error_rate_percent.warning then
        [⟨.error_rate, .warning, m.error_rate,
          th.error_rate_percent.warning⟩]
      else [])) ∧
    ((check_thresholds th m).filter
        (fun a => decide (a.atype = AlertType.consecutive_failures)) =
      (if m.consecutive_failures ≥ th.consecutive_failures.critical then
        [⟨.consecutive_failures, .critical, (m.consecutive_failures : ℚ),
          (th.consecutive_failures.critical : ℚ)⟩]
      else if m.consecutive_failures ≥ th.consecutive_failures.warning then
        [⟨.consecutive_failures, .warning, (m.consecutive_failures : ℚ),
          (th.consecutive_failures.warning : ℚ)⟩]
      else [])) := by
  refine ⟨?_, ?_, ?_, ?_⟩ <;>
    simp only [check_thresholds, List.filter_append]
  · rw [filter_pair_all rfl rfl, filter_pair_none rfl rfl,
      filter_pair_none rfl rfl, filter_pair_none rfl rfl,
      filter_health_none rfl]
    simp
  · rw [filter_pair_none rfl rfl, filter_pair_all rfl rfl,
      filter_pair_none rfl rfl, filter_pair_none rfl rfl,
      filter_health_none rfl]
    simp
  · rw [filter_pair_none rfl rfl, filter_pair_none rfl rfl,
      filter_pair_all rfl rfl, filter_pair_none rfl rfl,
      filter_health_none rfl]
    simp
  · rw [filter_pair_none rfl rfl, filter_pair_none rfl rfl,
      filter_pair_none rfl rfl, filter_pair_all rfl rfl,
      filter_health_none rfl]
    simp

end Monitor

namespace Monitor

/-! ## Claim C3: nearest-rank p95 and mean over successful latencies -/

/-- Claim C3: with `n` successful-sample latencies, the snapshot's p95 is
the element at index `⌊0.95 * n⌋` of the ascending sort, clamped to
`n - 1` (the clamp is vacuous since `⌊19n/20⌋ < n`), and 0 when `n = 0`;
the average is the arithmetic mean of the successful latencies, and 0
when `n = 0`. -/
theorem C3_p95_and_avg (cf : ℕ) (hs : Bool) (now : ℤ)
    (requests : List RequestMetrics) :
    (calculate_metrics cf hs now requests).1.response_time_p95 =
      (if successful_latencies requests = [] then 0
       else ((successful_latencies requests).mergeSort
           (fun a b => decide (a ≤ b))).getD
         (min (19 * (successful_latencies requests).length / 20)
           ((successful_latencies requests).length - 1)) 0) ∧
    (calculate_metrics cf hs now requests).1.response_time_avg =
      (if successful_latencies requests = [] then 0
       else (successful_latencies requests).sum /
         ((successful_latencies requests).length : ℚ)) := by
  by_cases h : requests = []
  · constructor <;> simp [calculate_metrics, h, successful_latencies]
  · by_cases h2 : successful_latencies requests = []
    · constructor <;> simp [calculate_metrics, h, h2]
    · have hn : 0 < (successful_latencies requests).length :=
        List.length_pos.mpr h2
      have hlt : 19 * (successful_latencies requests).length / 20 <
          (successful_latencies requests).length := by
        apply Nat.div_lt_of_lt_mul
        omega
      have hidx : 19 * (successful_latencies requests).length / 20 ≤
          (successful_latencies requests).length - 1 := by
        omega
      constructor <;>
        simp [calculate_metrics, h, h2, List.length_mergeSort,
          min_eq_left hidx]

end Monitor

namespace Monitor

/-! ## Claim C5: cooldown-gated alert firing -/

/-- Claim C5: `should_alert` fires iff alerting is enabled and the key is
fresh or its cooldown (in minutes, i.e. 60-second units) has elapsed; the
timestamp map is updated at the fired key exactly when it fires and is
untouched at every other key, so severities of one dimension keep
independent timers. -/
theorem C5_alert_gate (enabled : Bool) (cm : ℤ) (last : AlertKey → Option ℤ)
    (k : AlertKey) (now : ℤ) :
    ((should_alert enabled cm last k now).1 =
      (enabled && (match last k with
        | none => true
        | some t => decide (cm * 60 ≤ now - t)))) ∧
    ((should_alert enabled cm last k now).2 =
      (if (should_alert enabled cm last k now).1
       then Function.update last k (some now) else last)) ∧
    (∀ k2, (should_alert enabled cm last k now).2 k2 =
      (if (should_alert enabled cm last k now).1 = true ∧ k2 = k
       then some now else last k2)) := by
  cases enabled with
  | false => simp [should_alert]
  | true =>
      cases hk : last k with
      | none =>
          refine ⟨by simp [should_alert, hk], by simp [should_alert, hk], ?_⟩
          intro k2
          by_cases hkk : k2 = k <;>
            simp [should_alert, hk, Function.update_apply, hkk]
      | some t =>
          by_cases ht : now - t < cm * 60
          · have hb : ¬ (cm * 60 ≤ now - t) := by omega
            refine ⟨by simp [should_alert, hk, ht, hb],
              by simp [should_alert, hk, ht, hb], ?_⟩
            intro k2
            simp [should_alert, hk, ht, hb]
          · have hb : cm * 60 ≤ now - t := by omega
            refine ⟨by simp [should_alert, hk, ht, hb],
              by simp [should_alert, hk, ht, hb], ?_⟩
            intro k2
            by_cases hkk : k2 = k <;>
              simp [should_alert, hk, ht, hb, Function.update_apply, hkk]

/-! ## Claim C7: prober totality -/

/-- Claim C7 (code bug): `perform_request` has no branch for a method
other than GET, or POST with a truthy body, so the Python function falls
off the end and returns `None` instead of the `RequestMetrics` its own
annotation promises — shown here at method PUT and at POST with no body.
In the branches that are taken, a transport failure is caught and yields a
failed record with `status_code = 0`. -/
theorem C7_prober_totality :
    (perform_request ("/health") ("PUT") false (Transport.exn 5) 0 = none) ∧
    (perform_request ("/health") ("POST") false (Transport.ok 200 5) 0 = none) ∧
    (∀ ep : String, ∀ q : ℚ, ∀ n2 : ℤ,
       perform_request ep ("GET") false (Transport.exn q) n2 =
         some { endpoint := ep, response_time := q, status_code := 0,
                success := false, timestamp := n2 }) :=
  ⟨by decide, by decide, fun _ _ _ => rfl⟩

/-! ## Claim C8: per-cycle metric emission and overall status -/

/-- Concrete thresholds for the C8 counterexample: the defaults from
`config.py`. -/
def th0 : Thresholds :=
  { response_time_ms := ⟨2000, 5000⟩
    p95_latency_ms := ⟨3000, 6000⟩
    error_rate_percent := ⟨10, 25⟩
    consecutive_failures := ⟨3, 5⟩ }

/-- Concrete snapshot for the C8 counterexample: every request failed but
the dedicated health probe passed. -/
def m0 : ServiceMetrics :=
  { timestamp := 0
    response_time_avg := 0
    response_time_p95 := 0
    error_rate := 100
    total_requests := 2
    successful_requests := 0
    failed_requests := 2
    consecutive_failures := 2
    health_status := true }

/-- Claim C8 counterexample: at `th0`/`m0` the claim-side overall status
(critical-over-warning precedence across avg latency, error rate and
consecutive failures) is critical, yet not all five emitted records carry
it — the health-status record is tagged by the health flag alone
(normal here). -/
theorem C8_overall_status_cex :
    ((if m0.error_rate > th0.error_rate_percent.critical ∨
        m0.response_time_avg > th0.response_time_ms.critical ∨
        m0.consecutive_failures ≥ th0.consecutive_failures.critical then
        Status.critical
      else if m0.error_rate > th0.error_rate_percent.warning ∨
        m0.response_time_avg > th0.response_time_ms.warning ∨
        m0.consecutive_failures ≥ th0.consecutive_failures.warning then
        Status.warning
      else Status.normal) = Status.critical) ∧
    ¬ (∀ r ∈ log_metrics th0 m0, r.status = Status.critical) := by
  constructor
  · decide
  · decide

/-- Claim C8 (amended): every cycle emits exactly the five metric records
in order; the four aggregate records are tagged with the overall status
computed with critical-over-warning precedence from the avg-latency,
error-rate and consecutive-failures dimensions (strict `>` on the
continuous ones, `≥` on the counter); the health-status record carries
1/0 and is tagged normal/critical by the health flag alone, and is not
folded into the overall status. -/
theorem C8_overall_status (th : Thresholds) (m : ServiceMetrics) :
    (log_metrics th m).map (fun r => r.name) =
      [.response_time_avg, .response_time_p95, .error_rate,
       .consecutive_failures, .health_status] ∧
    (log_metrics th m).map (fun r => r.value) =
      [m.response_time_avg, m.response_time_p95, m.error_rate,
       (m.consecutive_failures : ℚ),
       if m.health_status then 1 else 0] ∧
    (log_metrics th m).map (fun r => r.status) =
      (let ov : Status :=
        if m.error_rate > th.error_rate_percent.critical ∨
            m.response_time_avg > th.response_time_ms.critical ∨
            m.consecutive_failures ≥ th.consecutive_failures.critical then
          .critical
        else if m.error_rate > th.error_rate_percent.warning ∨
            m.response_time_avg > th.response_time_ms.warning ∨
            m.consecutive_failures ≥ th.consecutive_failures.warning then
          .warning
        else .normal
      [ov, ov, ov, ov,
       if m.health_status then Status.normal else Status.critical]) := by
  refine ⟨rfl, rfl, ?_⟩
  have hov : overall_status th m =
      (if m.error_rate > th.error_rate_percent.critical ∨
          m.response_time_avg > th.response_time_ms.critical ∨
          m.consecutive_failures ≥ th.consecutive_failures.critical then
        Status.critical
      else if m.error_rate > th.error_rate_percent.warning ∨
          m.response_time_avg > th.response_time_ms.warning ∨
          m.consecutive_failures ≥ th.consecutive_failures.warning then
        Status.warning
      else Status.normal) := by
    unfold overall_status
    split_ifs <;> tauto
  simp [log_metrics, hov]

end Monitor
